import Mathlib

/-
  Verification of the page-stream segmentation evaluator.

  Shallow embedding of the repository's two source files:
    * src/codebase/helper_classes.py  (class Document)
    * src/codebase/metrics.py         (class SegEval)

  Python floats are modelled as rationals (every quantity in the code is a
  ratio of small natural numbers, represented exactly by the float type in
  the ranges that occur).  Python exceptions (ValueError on construction,
  ZeroDivisionError on metric computation, TypeError on comparisons) are
  modelled with Except.  Python sets of Document are modelled as Finsets,
  with structural equality, which coincides with the equality the Python
  class implements through its key triple (proved below).
-/

namespace PageStreamSeg

/-- The Document value: `dossier_name`, `start_idx`, `end_idx`
(fields of `Document.__init__` in helper_classes.py). -/
structure Document where
  dossier_name : String
  start_idx : Int
  end_idx : Int
  deriving DecidableEq, Repr

/-- `Document.__init__`: validates `end_idx >= start_idx`, raising a
ValueError whose message carries both offending values. -/
def Document.make (dossier_name : String) (start_idx end_idx : Int) :
    Except String Document :=
  if end_idx ≥ start_idx then
    Except.ok ⟨dossier_name, start_idx, end_idx⟩
  else
    Except.error ("Ensure that the end_idx >= start_idx. Values entered were "
      ++ toString start_idx ++ " and " ++ toString end_idx ++ " respectively.")

/-- `Document.__len__`: the stored page count `1 + end_idx - start_idx`. -/
def Document.length (d : Document) : Int :=
  1 + d.end_idx - d.start_idx

/-- `Document.__key__`: the identity key triple. -/
def Document.key (d : Document) : String × Int × Int :=
  (d.dossier_name, d.start_idx, d.end_idx)

/-- `Document.__call__` returns `self.__key__()`. -/
def Document.call (d : Document) : String × Int × Int :=
  d.key

/-- `Document.__hash__`: the ambient hash of the key triple. -/
def Document.dochash (d : Document) : UInt64 :=
  hash d.call

/-- A Python value returned by invoking a comparison operand: either a
key-shaped triple or some value of another type (tagged by a number). -/
inductive PyVal where
  | keyTriple : String × Int × Int → PyVal
  | other : Nat → PyVal
  deriving DecidableEq, Repr

/-- A Python object used as the right operand of a Document comparison:
a zero-argument callable returning a value, a callable whose invocation
raises, or a non-callable object. -/
inductive PyObj where
  | callable : PyVal → PyObj
  | callableRaises : PyObj
  | notCallable : PyObj
  deriving DecidableEq, Repr

/-- A Document used as a comparison operand: calling it returns its key. -/
def Document.toObj (d : Document) : PyObj :=
  PyObj.callable (PyVal.keyTriple d.key)

/-- Python `==` between a returned value and a key triple: tuples compare
componentwise; values of different types compare unequal without raising. -/
def pyValEqB : PyVal → PyVal → Bool
  | PyVal.keyTriple a, PyVal.keyTriple b => decide (a = b)
  | PyVal.other a, PyVal.other b => decide (a = b)
  | _, _ => false

/-- `Document.__eq__`: evaluates `self() == __o()` under a bare `except`
that builds a TypeError but never raises it, so any failure makes the
method fall through and return Python `None` (modelled as `none`). -/
def Document.eqPy (d : Document) (o : PyObj) : Option Bool :=
  match o with
  | PyObj.callable v => some (pyValEqB (PyVal.keyTriple d.key) v)
  | PyObj.callableRaises => none
  | PyObj.notCallable => none

/-- Python tuple `>` on key triples: lexicographic, deciding at the first
unequal component. -/
def keyGtB (a b : String × Int × Int) : Bool :=
  if a.1 ≠ b.1 then decide (b.1 < a.1)
  else if a.2.1 ≠ b.2.1 then decide (b.2.1 < a.2.1)
  else decide (b.2.2 < a.2.2)

/-- Python tuple `>=` on key triples. -/
def keyGeB (a b : String × Int × Int) : Bool :=
  if a.1 ≠ b.1 then decide (b.1 < a.1)
  else if a.2.1 ≠ b.2.1 then decide (b.2.1 < a.2.1)
  else decide (b.2.2 ≤ a.2.2)

/-- `Document.__gt__`: evaluates `self() > __o()` with no guard, so a
non-callable operand, a raising call, or a non-tuple result propagates a
TypeError to the caller. -/
def Document.gtPy (d : Document) (o : PyObj) : Except String Bool :=
  match o with
  | PyObj.callable (PyVal.keyTriple k) => Except.ok (keyGtB d.key k)
  | PyObj.callable (PyVal.other _) =>
      Except.error "TypeError: unsupported comparison of tuple and non-tuple"
  | PyObj.callableRaises => Except.error "TypeError raised by the operand call"
  | PyObj.notCallable => Except.error "TypeError: object is not callable"

/-- `Document.__ge__`: evaluates `self() >= __o()` with no guard. -/
def Document.gePy (d : Document) (o : PyObj) : Except String Bool :=
  match o with
  | PyObj.callable (PyVal.keyTriple k) => Except.ok (keyGeB d.key k)
  | PyObj.callable (PyVal.other _) =>
      Except.error "TypeError: unsupported comparison of tuple and non-tuple"
  | PyObj.callableRaises => Except.error "TypeError raised by the operand call"
  | PyObj.notCallable => Except.error "TypeError: object is not callable"

/-- `SegEval`: the evaluator's state after `__init__` deduplicated the two
input lists into sets (metrics.py). -/
structure SegEval where
  gt_docs : Finset Document
  pred_docs : Finset Document
  deriving DecidableEq

/-- `SegEval.__init__`: `set(gt_docs)` and `set(pred_docs)`. -/
def SegEval.init (gt_docs pred_docs : List Document) : SegEval :=
  ⟨gt_docs.toFinset, pred_docs.toFinset⟩

/-- `SegEval.__strict_iou`: `len(gt ∩ pred) / len(gt ∪ pred)`; Python's
division raises ZeroDivisionError when the union is empty. -/
def SegEval.strict_iou (e : SegEval) : Except String ℚ :=
  if (e.gt_docs ∪ e.pred_docs).card = 0 then
    Except.error "ZeroDivisionError: division by zero"
  else
    Except.ok (((e.gt_docs ∩ e.pred_docs).card : ℚ) /
      ((e.gt_docs ∪ e.pred_docs).card : ℚ))

/-- `SegEval.__strict_precision`: `len(gt ∩ pred) / len(pred)`. -/
def SegEval.strict_precision (e : SegEval) : Except String ℚ :=
  if e.pred_docs.card = 0 then
    Except.error "ZeroDivisionError: division by zero"
  else
    Except.ok (((e.gt_docs ∩ e.pred_docs).card : ℚ) / (e.pred_docs.card : ℚ))

/-- `SegEval.__strict_recall`: `len(gt ∩ pred) / len(gt)`. -/
def SegEval.strict_recall (e : SegEval) : Except String ℚ :=
  if e.gt_docs.card = 0 then
    Except.error "ZeroDivisionError: division by zero"
  else
    Except.ok (((e.gt_docs ∩ e.pred_docs).card : ℚ) / (e.gt_docs.card : ℚ))

/-- `SegEval.__strict_f1`: computes precision and recall, then
`2 * ((p * r) / (p + r))`; the division raises when `p + r` is zero. -/
def SegEval.strict_f1 (e : SegEval) : Except String ℚ := do
  let p ← e.strict_precision
  let r ← e.strict_recall
  if p + r = 0 then
    Except.error "ZeroDivisionError: float division by zero"
  else
    pure (2 * ((p * r) / (p + r)))

/-- `SegEval.__call__`: the serialized record, modelled as the ordered
association list of field names and metric values that the code passes to
`json.dumps`; Python evaluates the four values in this order, so the first
failing metric's exception propagates. -/
def SegEval.call (e : SegEval) : Except String (List (String × ℚ)) := do
  let f1 ← e.strict_f1
  let iou ← e.strict_iou
  let r ← e.strict_recall
  let p ← e.strict_precision
  pure [("strictF1", f1), ("strictIou", iou),
        ("strictRecall", r), ("strictPrecision", p)]

/-- The spec's lexicographic order on key triples (section 3): string order
on the dossier name, then numeric order on the start index, then numeric
order on the end index. -/
def specKeyGt (a b : String × Int × Int) : Prop :=
  b.1 < a.1 ∨ (a.1 = b.1 ∧ (b.2.1 < a.2.1 ∨ (a.2.1 = b.2.1 ∧ b.2.2 < a.2.2)))

/-- The spec's precision formula (section 4.2): `|GT ∩ Pred| / |Pred|`. -/
def specPrecision (GT Pred : Finset Document) : ℚ :=
  ((GT ∩ Pred).card : ℚ) / (Pred.card : ℚ)

/-- The spec's recall formula (section 4.2): `|GT ∩ Pred| / |GT|`. -/
def specRecall (GT Pred : Finset Document) : ℚ :=
  ((GT ∩ Pred).card : ℚ) / (GT.card : ℚ)

/-- The spec's IoU formula (section 4.2): `|GT ∩ Pred| / |GT ∪ Pred|`. -/
def specIoUFormula (GT Pred : Finset Document) : ℚ :=
  ((GT ∩ Pred).card : ℚ) / ((GT ∪ Pred).card : ℚ)

/-- The spec's F1 formula (section 4.2):
`2 · Precision · Recall / (Precision + Recall)`. -/
def specF1 (GT Pred : Finset Document) : ℚ :=
  2 * specPrecision GT Pred * specRecall GT Pred /
    (specPrecision GT Pred + specRecall GT Pred)

/-- Decidable equality on `Except`, used to evaluate the embedded
operations at concrete inputs. -/
instance instDecEqExcept {α β : Type} [DecidableEq α] [DecidableEq β] :
    DecidableEq (Except α β)
  | Except.error a, Except.error b =>
      if h : a = b then isTrue (by rw [h])
      else isFalse (fun hc => h (by injection hc))
  | Except.error _, Except.ok _ => isFalse (fun hc => Except.noConfusion hc)
  | Except.ok _, Except.error _ => isFalse (fun hc => Except.noConfusion hc)
  | Except.ok a, Except.ok b =>
      if h : a = b then isTrue (by rw [h])
      else isFalse (fun hc => h (by injection hc))

/-- Concrete document `("d1", 1, 3)` (spec section 8, scenario 1). -/
def docA : Document := ⟨"d1", 1, 3⟩

/-- Concrete document `("d1", 4, 6)` (spec section 8, scenario 1). -/
def docB : Document := ⟨"d1", 4, 6⟩

/-- Concrete document `("d1", 4, 7)` (spec section 8, scenario 1). -/
def docC : Document := ⟨"d1", 4, 7⟩

/-- Concrete document `("d1", 1, 2)` (spec section 8, scenarios 2-4). -/
def docD : Document := ⟨"d1", 1, 2⟩

/-- Concrete document `("d1", 3, 4)` (spec section 8, scenario 3). -/
def docE : Document := ⟨"d1", 3, 4⟩

/-- A document's key determines the document: the key triple lists every
field of the value. -/
theorem key_inj (a b : Document) : a.key = b.key ↔ a = b := by
  cases a
  cases b
  simp [Document.key]

/-- The embedded Python tuple comparison agrees with the spec's
lexicographic description of the order on key triples. -/
theorem keyGtB_iff_specKeyGt (a b : String × Int × Int) :
    keyGtB a b = true ↔ specKeyGt a b := by
  obtain ⟨n₁, s₁, e₁⟩ := a
  obtain ⟨n₂, s₂, e₂⟩ := b
  unfold keyGtB specKeyGt
  dsimp only
  by_cases hn : n₁ = n₂
  · subst hn
    rw [if_neg (by simp)]
    by_cases hs : s₁ = s₂
    · subst hs
      rw [if_neg (by simp)]
      simp [lt_irrefl]
    · rw [if_pos hs]
      simp [hs, lt_irrefl]
  · rw [if_pos hn]
    simp [hn]

/-- Claim C3: constructing a Document fails exactly when
`end_idx < start_idx`; on failure the error message states both offending
values; construction with `end_idx = start_idx` succeeds and the resulting
document has page count 1. -/
theorem document_construction_validation (n : String) (s e : Int) :
    ((∃ d, Document.make n s e = Except.ok d) ↔ ¬ e < s) ∧
    (e < s → Document.make n s e = Except.error
      ("Ensure that the end_idx >= start_idx. Values entered were "
        ++ toString s ++ " and " ++ toString e ++ " respectively.")) ∧
    (e = s → ∃ d, Document.make n s e = Except.ok d ∧ d.length = 1) := by
  unfold Document.make
  rcases le_or_lt s e with h | h
  · rw [if_pos h]
    refine ⟨⟨fun _ => not_lt.mpr h, fun _ => ⟨_, rfl⟩⟩,
      fun hc => absurd hc (not_lt.mpr h), ?_⟩
    rintro rfl
    exact ⟨_, rfl, by unfold Document.length; dsimp only; ring⟩
  · rw [if_neg (not_le.mpr h)]
    refine ⟨⟨?_, fun hc => absurd h hc⟩, fun _ => rfl,
      fun he => absurd (he ▸ h) (lt_irrefl s)⟩
    rintro ⟨d, hd⟩
    exact Except.noConfusion hd

/-- Witness for C3: `Document("d1", 1, 1)` succeeds with page count 1 and
`Document("d1", 5, 3)` raises with both values in the message. -/
theorem document_construction_validation_witness :
    (∃ d, Document.make "d1" 1 1 = Except.ok d ∧ d.length = 1) ∧
    Document.make "d1" 5 3 = Except.error
      ("Ensure that the end_idx >= start_idx. Values entered were "
        ++ toString (5 : Int) ++ " and " ++ toString (3 : Int)
        ++ " respectively.") :=
  ⟨(document_construction_validation "d1" 1 1).2.2 rfl,
   (document_construction_validation "d1" 5 3).2.1 (by norm_num)⟩

/-- Claim C7: two Documents compare equal exactly when their key triples
agree, equal Documents have equal hashes, and the greater-than comparison
holds exactly when the key triples are lexicographically ordered (string
order on the name, then numeric order on start, then on end). -/
theorem document_key_consistency (a b : Document) :
    (a.eqPy b.toObj = some true ↔ a.key = b.key) ∧
    (a.eqPy b.toObj = some true → a.dochash = b.dochash) ∧
    (a.gtPy b.toObj = Except.ok true ↔ specKeyGt a.key b.key) := by
  refine ⟨?_, ?_, ?_⟩
  · simp [Document.eqPy, Document.toObj, pyValEqB]
  · intro h
    have hk : a.key = b.key := by
      simpa [Document.eqPy, Document.toObj, pyValEqB] using h
    unfold Document.dochash Document.call
    rw [hk]
  · rw [show a.gtPy b.toObj = Except.ok (keyGtB a.key b.key) from rfl]
    rw [show (Except.ok (keyGtB a.key b.key) = (Except.ok true : Except String Bool))
        ↔ keyGtB a.key b.key = true from by
      constructor
      · intro h
        injection h
      · intro h
        rw [h]]
    exact keyGtB_iff_specKeyGt a.key b.key

/-- Witness for C7: the hash-consistency implication at two structurally
equal concrete Documents. -/
theorem document_key_consistency_witness :
    Document.dochash ⟨"d1", 1, 2⟩ = Document.dochash ⟨"d1", 1, 2⟩ :=
  (document_key_consistency ⟨"d1", 1, 2⟩ ⟨"d1", 1, 2⟩).2.1 rfl

/-- Claim C6 (code bug): at an incompatible operand the three comparisons
behave inconsistently — `__eq__` swallows the failure and evaluates to
Python `None` (its `TypeError` is constructed but never raised), while
`__gt__` and `__ge__` propagate the raw `TypeError` from invoking the
operand. -/
theorem comparison_type_mismatch_behaviour :
    Document.eqPy ⟨"d1", 1, 2⟩ PyObj.notCallable = none ∧
    Document.eqPy ⟨"d1", 1, 2⟩ PyObj.callableRaises = none ∧
    Document.gtPy ⟨"d1", 1, 2⟩ PyObj.notCallable =
      Except.error "TypeError: object is not callable" ∧
    Document.gePy ⟨"d1", 1, 2⟩ PyObj.notCallable =
      Except.error "TypeError: object is not callable" :=
  ⟨rfl, rfl, rfl, rfl⟩

/-- Claim C10: for every operand that can be invoked, equality holds
exactly when the invocation returns the document's key triple; the
operand's type is never inspected beyond the invocation. -/
theorem eq_tests_invocation_result (d : Document) (o : PyObj)
    (h : o ≠ PyObj.notCallable) :
    d.eqPy o = some true ↔ o = PyObj.callable (PyVal.keyTriple d.key) := by
  cases o with
  | callable v =>
      cases v with
      | keyTriple k => simp [Document.eqPy, pyValEqB, eq_comm]
      | other m => simp [Document.eqPy, pyValEqB]
  | callableRaises => simp [Document.eqPy]
  | notCallable => exact absurd rfl h

/-- Witness for C10: a non-Document callable returning the key triple of
`Document("d1", 1, 2)` compares equal to it. -/
theorem eq_tests_invocation_result_witness :
    Document.eqPy ⟨"d1", 1, 2⟩
      (PyObj.callable (PyVal.keyTriple ("d1", 1, 2))) = some true :=
  (eq_tests_invocation_result ⟨"d1", 1, 2⟩
    (PyObj.callable (PyVal.keyTriple ("d1", 1, 2))) (by simp)).mpr rfl

/-- Inversion of a successful precision computation. -/
theorem strict_precision_ok (e : SegEval) (p : ℚ)
    (h : e.strict_precision = Except.ok p) :
    e.pred_docs.card ≠ 0 ∧
      p = ((e.gt_docs ∩ e.pred_docs).card : ℚ) / (e.pred_docs.card : ℚ) := by
  unfold SegEval.strict_precision at h
  split at h
  · exact absurd h (by simp)
  · rename_i hc
    injection h with h
    exact ⟨hc, h.symm⟩

/-- Inversion of a successful recall computation. -/
theorem strict_recall_ok (e : SegEval) (r : ℚ)
    (h : e.strict_recall = Except.ok r) :
    e.gt_docs.card ≠ 0 ∧
      r = ((e.gt_docs ∩ e.pred_docs).card : ℚ) / (e.gt_docs.card : ℚ) := by
  unfold SegEval.strict_recall at h
  split at h
  · exact absurd h (by simp)
  · rename_i hc
    injection h with h
    exact ⟨hc, h.symm⟩

/-- Inversion of a successful IoU computation. -/
theorem strict_iou_ok (e : SegEval) (i : ℚ)
    (h : e.strict_iou = Except.ok i) :
    (e.gt_docs ∪ e.pred_docs).card ≠ 0 ∧
      i = ((e.gt_docs ∩ e.pred_docs).card : ℚ) /
        ((e.gt_docs ∪ e.pred_docs).card : ℚ) := by
  unfold SegEval.strict_iou at h
  split at h
  · exact absurd h (by simp)
  · rename_i hc
    injection h with h
    exact ⟨hc, h.symm⟩

/-- Inversion of a successful F1 computation. -/
theorem strict_f1_ok (e : SegEval) (f : ℚ)
    (h : e.strict_f1 = Except.ok f) :
    ∃ p r, e.strict_precision = Except.ok p ∧ e.strict_recall = Except.ok r ∧
      p + r ≠ 0 ∧ f = 2 * ((p * r) / (p + r)) := by
  unfold SegEval.strict_f1 at h
  cases hp : e.strict_precision with
  | error a =>
      rw [hp] at h
      simp [Bind.bind, Except.bind] at h
  | ok p =>
      rw [hp] at h
      simp only [Bind.bind, Except.bind] at h
      cases hr : e.strict_recall with
      | error a =>
          rw [hr] at h
          simp [Bind.bind, Except.bind] at h
      | ok r =>
          rw [hr] at h
          simp only [Bind.bind, Except.bind] at h
          split at h
          · exact absurd h (by simp)
          · rename_i hc
            simp only [Pure.pure, Except.pure] at h
            injection h with h
            exact ⟨p, r, rfl, rfl, hc, h.symm⟩

/-- A ratio of a smaller by a larger positive count lies in `[0, 1]`. -/
theorem ratio_mem_Icc (n m : ℕ) (hm : m ≠ 0) (hnm : n ≤ m) :
    ((n : ℚ) / (m : ℚ)) ∈ Set.Icc (0 : ℚ) 1 := by
  have hm' : (0 : ℚ) < (m : ℚ) := by exact_mod_cast Nat.pos_of_ne_zero hm
  constructor
  · positivity
  · rw [div_le_one hm']
    exact_mod_cast hnm

/-- Claim C1: over the deduplicated sets, intersection membership is exact
match on the identity key, and with nonzero denominators the four metrics
equal the spec's formulas `|GT ∩ Pred| / |Pred|`, `|GT ∩ Pred| / |GT|`,
`|GT ∩ Pred| / |GT ∪ Pred|` and `2 · Precision · Recall /
(Precision + Recall)`. -/
theorem strict_metrics_match_spec (gt_docs pred_docs : List Document)
    (hg : gt_docs.toFinset.card ≠ 0) (hp : pred_docs.toFinset.card ≠ 0)
    (hpr : specPrecision gt_docs.toFinset pred_docs.toFinset
         + specRecall gt_docs.toFinset pred_docs.toFinset ≠ 0) :
    (∀ x : Document, x ∈ gt_docs.toFinset ∩ pred_docs.toFinset ↔
      ((∃ g ∈ gt_docs, g.key = x.key) ∧ ∃ q ∈ pred_docs, q.key = x.key)) ∧
    (SegEval.init gt_docs pred_docs).strict_precision
      = Except.ok (specPrecision gt_docs.toFinset pred_docs.toFinset) ∧
    (SegEval.init gt_docs pred_docs).strict_recall
      = Except.ok (specRecall gt_docs.toFinset pred_docs.toFinset) ∧
    (SegEval.init gt_docs pred_docs).strict_iou
      = Except.ok (specIoUFormula gt_docs.toFinset pred_docs.toFinset) ∧
    (SegEval.init gt_docs pred_docs).strict_f1
      = Except.ok (specF1 gt_docs.toFinset pred_docs.toFinset) := by
  have hu : (gt_docs.toFinset ∪ pred_docs.toFinset).card ≠ 0 := by
    intro h
    exact hg (Finset.card_eq_zero.mpr
      (Finset.union_eq_empty.mp (Finset.card_eq_zero.mp h)).1)
  have hprec : (SegEval.init gt_docs pred_docs).strict_precision
      = Except.ok (specPrecision gt_docs.toFinset pred_docs.toFinset) := by
    unfold SegEval.strict_precision SegEval.init specPrecision
    rw [if_neg hp]
  have hrec : (SegEval.init gt_docs pred_docs).strict_recall
      = Except.ok (specRecall gt_docs.toFinset pred_docs.toFinset) := by
    unfold SegEval.strict_recall SegEval.init specRecall
    rw [if_neg hg]
  refine ⟨?_, hprec, hrec, ?_, ?_⟩
  · intro x
    simp only [Finset.mem_inter, List.mem_toFinset]
    constructor
    · rintro ⟨h1, h2⟩
      exact ⟨⟨x, h1, rfl⟩, ⟨x, h2, rfl⟩⟩
    · rintro ⟨⟨g, hg1, hg2⟩, ⟨q, hq1, hq2⟩⟩
      rw [key_inj] at hg2 hq2
      exact ⟨hg2 ▸ hg1, hq2 ▸ hq1⟩
  · unfold SegEval.strict_iou SegEval.init specIoUFormula
    rw [if_neg hu]
  · unfold SegEval.strict_f1
    rw [hprec, hrec]
    simp only [Bind.bind, Except.bind]
    rw [if_neg hpr]
    simp only [Pure.pure, Except.pure]
    unfold specF1
    rw [Except.ok.injEq]
    ring

/-- Witness for C1: spec scenario 1 — GT `[(d1,1,3), (d1,4,6)]`,
Pred `[(d1,1,3), (d1,4,7)]`. -/
theorem strict_metrics_match_spec_witness :
    (SegEval.init [docA, docB] [docA, docC]).strict_precision
      = Except.ok (specPrecision [docA, docB].toFinset [docA, docC].toFinset) :=
  (strict_metrics_match_spec [docA, docB] [docA, docC]
    (by decide) (by decide)
    (by
      unfold specPrecision specRecall
      rw [show ([docA, docB].toFinset ∩ [docA, docC].toFinset).card = 1 from
          by decide,
        show ([docA, docC].toFinset).card = 2 from by decide,
        show ([docA, docB].toFinset).card = 2 from by decide]
      norm_num)).2.1

/-- Claim C2 counterexample: on a concrete evaluation with every metric
defined, the serialized record's field names are `strictF1`, `strictIou`,
`strictRecall`, `strictPrecision` — not the claimed spelling `strictIoU`. -/
theorem serialized_field_names_cex :
    ((SegEval.init [docD] [docD]).call).map (fun l => l.map Prod.fst)
      = Except.ok ["strictF1", "strictIou", "strictRecall", "strictPrecision"] ∧
    ((SegEval.init [docD] [docD]).call).map (fun l => l.map Prod.fst)
      ≠ Except.ok ["strictF1", "strictIoU", "strictRecall", "strictPrecision"] := by
  have hf1 : (SegEval.init [docD] [docD]).strict_f1 = Except.ok 1 := by
    have hp : (SegEval.init [docD] [docD]).strict_precision
        = Except.ok (1 / 1) := rfl
    have hr : (SegEval.init [docD] [docD]).strict_recall
        = Except.ok (1 / 1) := rfl
    unfold SegEval.strict_f1
    rw [hp, hr]
    simp only [Bind.bind, Except.bind]
    norm_num [Pure.pure, Except.pure]
  have hcall : (SegEval.init [docD] [docD]).call
      = Except.ok [("strictF1", 1), ("strictIou", 1 / 1),
          ("strictRecall", 1 / 1), ("strictPrecision", 1 / 1)] := by
    unfold SegEval.call
    rw [hf1,
      show (SegEval.init [docD] [docD]).strict_iou = Except.ok (1 / 1) from rfl,
      show (SegEval.init [docD] [docD]).strict_recall
        = Except.ok (1 / 1) from rfl,
      show (SegEval.init [docD] [docD]).strict_precision
        = Except.ok (1 / 1) from rfl]
    simp only [Bind.bind, Except.bind, Pure.pure, Except.pure]
  rw [hcall]
  constructor
  · rfl
  · intro hcontra
    simp only [Except.map, Except.ok.injEq, List.map_cons, List.map_nil] at hcontra
    exact absurd (congrArg (fun l => l.get? 1) hcontra) (by decide)

/-- Claim C2 amended: whenever the evaluation succeeds, the serialized
record's field names are exactly `strictF1`, `strictIou`, `strictRecall`,
`strictPrecision`, each paired with the corresponding metric value. -/
theorem serialized_field_names (e : SegEval) (fields : List (String × ℚ))
    (h : e.call = Except.ok fields) :
    ∃ f1 iou r p, e.strict_f1 = Except.ok f1 ∧ e.strict_iou = Except.ok iou ∧
      e.strict_recall = Except.ok r ∧ e.strict_precision = Except.ok p ∧
      fields = [("strictF1", f1), ("strictIou", iou),
        ("strictRecall", r), ("strictPrecision", p)] := by
  unfold SegEval.call at h
  cases hf : e.strict_f1 with
  | error a =>
      rw [hf] at h
      simp [Bind.bind, Except.bind] at h
  | ok f1 =>
      rw [hf] at h
      simp only [Bind.bind, Except.bind] at h
      cases hi : e.strict_iou with
      | error a =>
          rw [hi] at h
          simp [Bind.bind, Except.bind] at h
      | ok iou =>
          rw [hi] at h
          simp only [Bind.bind, Except.bind] at h
          cases hr : e.strict_recall with
          | error a =>
              rw [hr] at h
              simp [Bind.bind, Except.bind] at h
          | ok r =>
              rw [hr] at h
              simp only [Bind.bind, Except.bind] at h
              cases hp : e.strict_precision with
              | error a =>
                  rw [hp] at h
                  simp [Bind.bind, Except.bind] at h
              | ok p =>
                  rw [hp] at h
                  simp only [Bind.bind, Except.bind, Pure.pure,
                    Except.pure] at h
                  injection h with h
                  exact ⟨f1, iou, r, p, rfl, rfl, rfl, rfl, h.symm⟩

/-- Witness for the amended C2 at spec scenario 2 (`GT = Pred`). -/
theorem serialized_field_names_witness :
    ∃ f1 iou r p, (SegEval.init [docD] [docD]).strict_f1 = Except.ok f1 ∧
      (SegEval.init [docD] [docD]).strict_iou = Except.ok iou ∧
      (SegEval.init [docD] [docD]).strict_recall = Except.ok r ∧
      (SegEval.init [docD] [docD]).strict_precision = Except.ok p ∧
      [("strictF1", (1 : ℚ)), ("strictIou", 1 / 1), ("strictRecall", 1 / 1),
        ("strictPrecision", 1 / 1)]
        = [("strictF1", f1), ("strictIou", iou),
            ("strictRecall", r), ("strictPrecision", p)] :=
  serialized_field_names (SegEval.init [docD] [docD])
    [("strictF1", 1), ("strictIou", 1 / 1), ("strictRecall", 1 / 1),
      ("strictPrecision", 1 / 1)]
    (by
      have hp : (SegEval.init [docD] [docD]).strict_precision
          = Except.ok (1 / 1) := rfl
      have hr : (SegEval.init [docD] [docD]).strict_recall
          = Except.ok (1 / 1) := rfl
      have hf1 : (SegEval.init [docD] [docD]).strict_f1 = Except.ok 1 := by
        unfold SegEval.strict_f1
        rw [hp, hr]
        simp only [Bind.bind, Except.bind]
        norm_num [Pure.pure, Except.pure]
      unfold SegEval.call
      rw [hf1,
        show (SegEval.init [docD] [docD]).strict_iou
          = Except.ok (1 / 1) from rfl, hr, hp]
      simp only [Bind.bind, Except.bind, Pure.pure, Except.pure])

/-- Claim C4 counterexample: with an empty ground-truth set and a nonempty
prediction set, recall raises but IoU does not — the union is nonempty, so
the IoU division succeeds and returns 0. -/
theorem empty_gt_iou_defined :
    (SegEval.init [] [docD]).strict_iou = Except.ok 0 ∧
    (SegEval.init [] [docD]).strict_recall
      = Except.error "ZeroDivisionError: division by zero" := by
  constructor
  · have h : (SegEval.init [] [docD]).strict_iou = Except.ok (0 / 1) := rfl
    rw [h]
    norm_num
  · rfl

/-- Claim C4 amended: an empty ground-truth set makes recall raise, an
empty prediction set makes precision raise, and IoU raises exactly when
both sets are empty — with exactly one side empty, IoU returns 0. -/
theorem empty_input_error_behaviour (gt_docs pred_docs : List Document) :
    (gt_docs.toFinset = ∅ → (SegEval.init gt_docs pred_docs).strict_recall
      = Except.error "ZeroDivisionError: division by zero") ∧
    (pred_docs.toFinset = ∅ →
      (SegEval.init gt_docs pred_docs).strict_precision
        = Except.error "ZeroDivisionError: division by zero") ∧
    (gt_docs.toFinset = ∅ → pred_docs.toFinset = ∅ →
      (SegEval.init gt_docs pred_docs).strict_iou
        = Except.error "ZeroDivisionError: division by zero") ∧
    (gt_docs.toFinset = ∅ → pred_docs.toFinset ≠ ∅ →
      (SegEval.init gt_docs pred_docs).strict_iou = Except.ok 0) ∧
    (gt_docs.toFinset ≠ ∅ → pred_docs.toFinset = ∅ →
      (SegEval.init gt_docs pred_docs).strict_iou = Except.ok 0) := by
  refine ⟨?_, ?_, ?_, ?_, ?_⟩
  · intro hg
    unfold SegEval.strict_recall SegEval.init
    rw [if_pos (by simp [hg])]
  · intro hq
    unfold SegEval.strict_precision SegEval.init
    rw [if_pos (by simp [hq])]
  · intro hg hq
    unfold SegEval.strict_iou SegEval.init
    rw [if_pos (by simp [hg, hq])]
  · intro hg hq
    unfold SegEval.strict_iou SegEval.init
    rw [hg, Finset.empty_union, Finset.empty_inter,
      if_neg (fun hcard => hq (Finset.card_eq_zero.mp hcard))]
    simp
  · intro hg hq
    unfold SegEval.strict_iou SegEval.init
    rw [hq, Finset.union_empty, Finset.inter_empty,
      if_neg (fun hcard => hg (Finset.card_eq_zero.mp hcard))]
    simp

/-- Witness for the amended C4 at spec scenario 4 (`GT = []`,
`Pred = [(d1,1,2)]`). -/
theorem empty_input_error_behaviour_witness :
    (SegEval.init [] [docD]).strict_recall
      = Except.error "ZeroDivisionError: division by zero" ∧
    (SegEval.init [] [docD]).strict_iou = Except.ok 0 :=
  ⟨(empty_input_error_behaviour [] [docD]).1 rfl,
   (empty_input_error_behaviour [] [docD]).2.2.2.1 rfl (by decide)⟩

/-- Claim C5: for nonempty, disjoint deduplicated sets, precision, recall
and IoU all equal 0 and F1 raises a ZeroDivisionError (its denominator
`precision + recall` is zero). -/
theorem disjoint_metrics (gt_docs pred_docs : List Document)
    (hg : gt_docs.toFinset ≠ ∅) (hp : pred_docs.toFinset ≠ ∅)
    (hd : gt_docs.toFinset ∩ pred_docs.toFinset = ∅) :
    (SegEval.init gt_docs pred_docs).strict_precision = Except.ok 0 ∧
    (SegEval.init gt_docs pred_docs).strict_recall = Except.ok 0 ∧
    (SegEval.init gt_docs pred_docs).strict_iou = Except.ok 0 ∧
    (SegEval.init gt_docs pred_docs).strict_f1
      = Except.error "ZeroDivisionError: float division by zero" := by
  have hprec : (SegEval.init gt_docs pred_docs).strict_precision
      = Except.ok 0 := by
    unfold SegEval.strict_precision SegEval.init
    rw [if_neg (fun h => hp (Finset.card_eq_zero.mp h)), hd]
    simp
  have hrec : (SegEval.init gt_docs pred_docs).strict_recall
      = Except.ok 0 := by
    unfold SegEval.strict_recall SegEval.init
    rw [if_neg (fun h => hg (Finset.card_eq_zero.mp h)), hd]
    simp
  have hiou : (SegEval.init gt_docs pred_docs).strict_iou = Except.ok 0 := by
    unfold SegEval.strict_iou SegEval.init
    rw [if_neg (fun h => hg
        (Finset.union_eq_empty.mp (Finset.card_eq_zero.mp h)).1), hd]
    simp
  refine ⟨hprec, hrec, hiou, ?_⟩
  unfold SegEval.strict_f1
  rw [hprec, hrec]
  simp only [Bind.bind, Except.bind]
  rw [if_pos (by norm_num)]

/-- Witness for C5 at spec scenario 3 (`GT = [(d1,1,2)]`,
`Pred = [(d1,3,4)]`). -/
theorem disjoint_metrics_witness :
    (SegEval.init [docD] [docE]).strict_precision = Except.ok 0 ∧
    (SegEval.init [docD] [docE]).strict_recall = Except.ok 0 ∧
    (SegEval.init [docD] [docE]).strict_iou = Except.ok 0 ∧
    (SegEval.init [docD] [docE]).strict_f1
      = Except.error "ZeroDivisionError: float division by zero" :=
  disjoint_metrics [docD] [docE] (by decide) (by decide) (by decide)

/-- Claim C8: every metric value a successful evaluation produces lies in
the closed interval `[0, 1]`. -/
theorem strict_metrics_range (gt_docs pred_docs : List Document)
    (p r i f : ℚ)
    (hp : (SegEval.init gt_docs pred_docs).strict_precision = Except.ok p)
    (hr : (SegEval.init gt_docs pred_docs).strict_recall = Except.ok r)
    (hi : (SegEval.init gt_docs pred_docs).strict_iou = Except.ok i)
    (hf : (SegEval.init gt_docs pred_docs).strict_f1 = Except.ok f) :
    p ∈ Set.Icc (0 : ℚ) 1 ∧ r ∈ Set.Icc (0 : ℚ) 1 ∧
      i ∈ Set.Icc (0 : ℚ) 1 ∧ f ∈ Set.Icc (0 : ℚ) 1 := by
  obtain ⟨hpden, hpv⟩ := strict_precision_ok _ p hp
  obtain ⟨hrden, hrv⟩ := strict_recall_ok _ r hr
  obtain ⟨hiden, hiv⟩ := strict_iou_ok _ i hi
  have hp01 : p ∈ Set.Icc (0 : ℚ) 1 := by
    rw [hpv]
    exact ratio_mem_Icc _ _ hpden
      (Finset.card_le_card Finset.inter_subset_right)
  have hr01 : r ∈ Set.Icc (0 : ℚ) 1 := by
    rw [hrv]
    exact ratio_mem_Icc _ _ hrden
      (Finset.card_le_card Finset.inter_subset_left)
  have hi01 : i ∈ Set.Icc (0 : ℚ) 1 := by
    rw [hiv]
    exact ratio_mem_Icc _ _ hiden
      (Finset.card_le_card (Finset.inter_subset_left.trans
        Finset.subset_union_left))
  refine ⟨hp01, hr01, hi01, ?_⟩
  obtain ⟨p', r', hp', hr', hsum, hfv⟩ := strict_f1_ok _ f hf
  rw [hp] at hp'
  rw [hr] at hr'
  injection hp' with hp'
  injection hr' with hr'
  subst hp'
  subst hr'
  obtain ⟨hp0, hp1⟩ := hp01
  obtain ⟨hr0, hr1⟩ := hr01
  have hsum' : (0 : ℚ) < p + r :=
    lt_of_le_of_ne (add_nonneg hp0 hr0) (Ne.symm hsum)
  rw [hfv]
  constructor
  · have := div_nonneg (mul_nonneg hp0 hr0) hsum'.le
    linarith
  · rw [show (2 : ℚ) * (p * r / (p + r)) = 2 * (p * r) / (p + r) from
      (mul_div_assoc 2 (p * r) (p + r)).symm, div_le_one hsum']
    nlinarith [mul_nonneg (sub_nonneg.mpr hp1) hr0,
      mul_nonneg (sub_nonneg.mpr hr1) hp0]

/-- Witness for C8 at spec scenario 1: the four metric values `1/2`,
`1/2`, `1/3`, `1/2` all lie in `[0, 1]`. -/
theorem strict_metrics_range_witness :
    (1 / 2 : ℚ) ∈ Set.Icc (0 : ℚ) 1 ∧ (1 / 2 : ℚ) ∈ Set.Icc (0 : ℚ) 1 ∧
      (1 / 3 : ℚ) ∈ Set.Icc (0 : ℚ) 1 ∧ (1 / 2 : ℚ) ∈ Set.Icc (0 : ℚ) 1 :=
  strict_metrics_range [docA, docB] [docA, docC] (1 / 2) (1 / 2) (1 / 3)
    (1 / 2) rfl rfl rfl
    (by
      have hp : (SegEval.init [docA, docB] [docA, docC]).strict_precision
          = Except.ok (1 / 2) := rfl
      have hr : (SegEval.init [docA, docB] [docA, docC]).strict_recall
          = Except.ok (1 / 2) := rfl
      unfold SegEval.strict_f1
      rw [hp, hr]
      simp only [Bind.bind, Except.bind]
      norm_num [Pure.pure, Except.pure])

/-- Claim C9: the evaluator built from any input lists equals — in stored
sets and in evaluation output — the evaluator built from the same lists
with duplicates removed. -/
theorem dedup_collapses (gt_docs pred_docs : List Document) :
    SegEval.init gt_docs pred_docs
      = SegEval.init gt_docs.dedup pred_docs.dedup ∧
    (SegEval.init gt_docs pred_docs).call
      = (SegEval.init gt_docs.dedup pred_docs.dedup).call := by
  have key : ∀ l : List Document, l.dedup.toFinset = l.toFinset := by
    intro l
    apply Finset.ext
    intro x
    simp [List.mem_dedup]
  have h : SegEval.init gt_docs pred_docs
      = SegEval.init gt_docs.dedup pred_docs.dedup := by
    unfold SegEval.init
    rw [key gt_docs, key pred_docs]
  exact ⟨h, by rw [h]⟩

end PageStreamSeg
